import Mathlib

/-!
Shallow embedding of the upload task engine (`UploadTask` in
packages/storage, the class embedded in task.ts).  The engine is a
sequential state machine driven by completion callbacks of at most one
outstanding network call.  Each private method of the class is embedded as
a pure function on an explicit `UploadTask` state record; the asynchronous
boundaries of the source (auth-token resolution, network-call completion)
become explicit events applied to the state.

Conventions of the embedding:
* `pendingToken` records that `_resolveToken` has been called with a
  prepared step and its callback has not yet run (the token arrives as the
  `token` event).  `_continueUpload` computes its chunk size and offset
  before resolving the token, so the prepared step carries them.
* `request` mirrors the `_request` field; `outstanding` counts network
  calls that have been issued (`makeRequest`) and not yet completed, and
  `issued` is the trace of issued calls, both instrumentation that the
  source holds implicitly in the runtime.
* Observer callbacks are scheduled through `fbsAsync` in the source, with
  their arguments bound at scheduling time, so a notification pass only
  schedules deliveries; the delivery lists are modelled by `notifyPass`
  and `notifyObserver` below, and the state-changing part of
  `_notifyObservers` is `_finishPromise`.
* The per-chunk progress callback made by `_makeProgressCallback` only
  re-invokes `_updateProgress` with intermediate counts while the request
  is in flight; the completion callback then overwrites `_transferred`
  with the response value, so it is omitted.
-/

/-- The internal task states of the engine (`InternalTaskState`). -/
inductive InternalTaskState
  | running
  | pausing
  | paused
  | canceling
  | canceled
  | error
  | success
deriving DecidableEq, Repr

/-- The externally visible task states (`TaskState`). -/
inductive TaskState
  | Running
  | Paused
  | Success
  | Canceled
  | Error
deriving DecidableEq, Repr

/-- Modelled from the spec: `taskStateFromInternalTaskState` lives in
taskenums.ts, which is not under src/.  Section 4.3 of the spec ties the
observer channels and future settlement to RUNNING/PAUSED (progress),
SUCCESS (complete/resolve) and CANCELED/ERROR (error/reject), which forces
the mapping on those five states; PAUSING and CANCELING are in-flight
control states still reported as running. -/
def taskStateFromInternalTaskState : InternalTaskState → TaskState
  | .running => .Running
  | .pausing => .Running
  | .canceling => .Running
  | .paused => .Paused
  | .canceled => .Canceled
  | .error => .Error
  | .success => .Success

/-- Modelled from the spec: error codes live in error.ts, which is not
under src/.  The spec distinguishes the "call canceled" outcome from any
other failure, which is all `codeEquals(Code.CANCELED)` is used for. -/
inductive ErrorCode
  | canceledCode
  | otherCode
deriving DecidableEq, Repr

/-- A `FirebaseStorageError` as far as the engine inspects it: its code
and an identity distinguishing error instances. -/
structure FirebaseStorageError where
  code : ErrorCode
  id : Nat
deriving DecidableEq, Repr

/-- The `canceled()` error constructor used by the CANCELED transition. -/
def canceledError : FirebaseStorageError := ⟨.canceledCode, 0⟩

/-- A network call as issued by the engine: one of the five backend
request kinds, with the parameters the engine computes for it.
`continueChunk` carries the chunk size and starting offset computed in
`_continueUpload` before token resolution. -/
inductive NetCall
  | createResumable
  | fetchStatus
  | continueChunk (chunkSize : Nat) (offset : Nat)
  | fetchMetadata
  | oneShot
deriving DecidableEq, Repr

/-- The outstanding request handle (`_request`): the call it was made
for, and whether `cancel()` has been requested on the handle. -/
structure Req where
  call : NetCall
  cancelRequested : Bool
deriving DecidableEq, Repr

/-- An observer registration as the engine sees it: identity plus which
of the three optional handlers are present. -/
structure StorageObserver where
  oid : Nat
  hasNext : Bool
  hasError : Bool
  hasComplete : Bool
deriving DecidableEq, Repr

/-- An `UploadTaskSnapshot`: transferred bytes, total bytes, external
state and metadata at the moment of capture. -/
structure UploadTaskSnapshot where
  bytesTransferred : Nat
  totalBytes : Nat
  state : TaskState
  metadata : Option Nat
deriving DecidableEq, Repr

/-- The completion future: `pending` means the stored resolve/reject
handlers are still non-null; settling stores the value and nulls them. -/
inductive PromiseState
  | pending
  | resolved (snap : UploadTaskSnapshot)
  | rejected (e : Option FirebaseStorageError)
deriving DecidableEq, Repr

/-- The state of one upload task engine: the fields of the `UploadTask`
class, plus the `pendingToken`/`outstanding`/`issued` instrumentation
described in the file comment.  Metadata objects are represented by
numeric identities. -/
structure UploadTask where
  totalBytes : Nat
  baseChunkSize : Nat
  transferred : Nat
  needToFetchStatus : Bool
  needToFetchMetadata : Bool
  observers : List StorageObserver
  resumable : Bool
  state : InternalTaskState
  error : Option FirebaseStorageError
  uploadUrl : Option Nat
  request : Option Req
  chunkMultiplier : Nat
  metadata : Option Nat
  promise : PromiseState
  outstanding : Nat
  pendingToken : Option NetCall
  issued : List NetCall
deriving DecidableEq, Repr

namespace UploadTask

/-- The `snapshot` accessor. -/
def snapshot (t : UploadTask) : UploadTaskSnapshot :=
  ⟨t.transferred, t.totalBytes, taskStateFromInternalTaskState t.state,
    t.metadata⟩

/-- `_finishPromise`: if the resolve/reject handlers are still present and
the external state is terminal, settle the future (resolving with the
current snapshot, rejecting with the stored error) and null the handlers;
otherwise leave everything unchanged. -/
def finishPromise (t : UploadTask) : UploadTask :=
  match t.promise with
  | .pending =>
    match taskStateFromInternalTaskState t.state with
    | .Success => { t with promise := .resolved t.snapshot }
    | .Canceled => { t with promise := .rejected t.error }
    | .Error => { t with promise := .rejected t.error }
    | _ => t
  | _ => t

/-- The state-changing part of `_notifyObservers`: it first runs
`_finishPromise`; the deliveries it schedules are modelled by
`notifyPass`. -/
def notifyObservers (t : UploadTask) : UploadTask :=
  finishPromise t

/-- The step `_start` dispatches to, with the parameters it computes
synchronously: `_createResumable` when no session URL exists, then
`_fetchStatus` / `_fetchMetadata` by the two flags, else
`_continueUpload` with chunk size `resumableUploadChunkSize *
_chunkMultiplier` at offset `_transferred`; `_oneShotUpload` for
non-resumable tasks. -/
def nextStep (t : UploadTask) : NetCall :=
  if t.resumable then
    if t.uploadUrl = none then .createResumable
    else if t.needToFetchStatus then .fetchStatus
    else if t.needToFetchMetadata then .fetchMetadata
    else .continueChunk (t.baseChunkSize * t.chunkMultiplier) t.transferred
  else .oneShot

/-- `_start`: do nothing unless the state is RUNNING and no request is
outstanding; otherwise dispatch the next step, whose synchronous effect
is to begin resolving an auth token for the prepared call. -/
def start (t : UploadTask) : UploadTask :=
  if t.state ≠ .running then t
  else if t.request ≠ none then t
  else { t with pendingToken := some t.nextStep }

/-- `this._request.cancel()` as performed by the PAUSING/CANCELING
transitions when a request is outstanding. -/
def cancelOutstanding (t : UploadTask) : UploadTask :=
  match t.request with
  | some r => { t with request := some { r with cancelRequested := true } }
  | none => t

/-- `_transition`: the switch on the target state. -/
def transition (t : UploadTask) (s : InternalTaskState) : UploadTask :=
  if t.state = s then t
  else
    match s with
    | .canceling => cancelOutstanding { t with state := s }
    | .pausing => cancelOutstanding { t with state := s }
    | .running =>
        let wasPaused := t.state = .paused
        let t1 := { t with state := s }
        if wasPaused then start (notifyObservers t1) else t1
    | .paused => notifyObservers { t with state := s }
    | .canceled =>
        notifyObservers { t with error := some canceledError, state := s }
    | .error => notifyObservers { t with state := s }
    | .success => notifyObservers { t with state := s }

/-- `completeTransitions_`: resolve an interrupted call against the
current control state. -/
def completeTransitions (t : UploadTask) : UploadTask :=
  match t.state with
  | .pausing => transition t .paused
  | .canceling => transition t .canceled
  | .running => start t
  | _ => t

/-- `_updateProgress`: store the new transferred count (which may legally
decrease) and notify observers when it changed. -/
def updateProgress (t : UploadTask) (transferred : Nat) : UploadTask :=
  let old := t.transferred
  let t1 := { t with transferred := transferred }
  if transferred ≠ old then notifyObservers t1 else t1

/-- `_errorHandler`: clear the request handle, reset the chunk multiplier
to 1, then either mark a status refetch and complete transitions (for the
distinguished canceled outcome) or store the error and transition to
ERROR. -/
def errorHandler (t : UploadTask) (e : FirebaseStorageError) : UploadTask :=
  let t1 := { t with request := none, chunkMultiplier := 1 }
  if e.code = .canceledCode then
    completeTransitions { t1 with needToFetchStatus := true }
  else
    transition { t1 with error := some e } .error

/-- `_metadataErrorHandler`: like `_errorHandler` but used by the
metadata fetch; it does not touch the chunk multiplier or the
status-refetch flag. -/
def metadataErrorHandler (t : UploadTask) (e : FirebaseStorageError) :
    UploadTask :=
  let t1 := { t with request := none }
  if e.code = .canceledCode then completeTransitions t1
  else transition { t1 with error := some e } .error

/-- Success callback of `_createResumable`. -/
def createResumableOk (t : UploadTask) (url : Nat) : UploadTask :=
  completeTransitions
    { t with request := none, uploadUrl := some url,
             needToFetchStatus := false }

/-- Success callback of `_fetchStatus`. -/
def fetchStatusOk (t : UploadTask) (current : Nat) (finalized : Bool) :
    UploadTask :=
  let t1 := updateProgress { t with request := none } current
  let t2 := { t1 with needToFetchStatus := false }
  let t3 := if finalized then { t2 with needToFetchMetadata := true } else t2
  completeTransitions t3

/-- `_increaseMultiplier`: double the multiplier unless the current chunk
size has reached 32 MiB. -/
def increaseMultiplier (t : UploadTask) : UploadTask :=
  let currentSize := t.baseChunkSize * t.chunkMultiplier
  if currentSize < 32 * 1024 * 1024 then
    { t with chunkMultiplier := t.chunkMultiplier * 2 }
  else t

/-- Success callback of `_continueUpload`: grow the multiplier, clear the
handle, update progress from the response, then either finish with the
response metadata or keep driving. -/
def continueOk (t : UploadTask) (current : Nat) (finalized : Bool)
    (metadata : Option Nat) : UploadTask :=
  let t1 := increaseMultiplier t
  let t2 := updateProgress { t1 with request := none } current
  if finalized then transition { t2 with metadata := metadata } .success
  else completeTransitions t2

/-- Success callback of `_fetchMetadata`. -/
def fetchMetadataOk (t : UploadTask) (m : Nat) : UploadTask :=
  transition { t with request := none, metadata := some m } .success

/-- Success callback of `_oneShotUpload`. -/
def oneShotOk (t : UploadTask) (m : Nat) : UploadTask :=
  let t1 := updateProgress { t with request := none, metadata := some m }
    t.totalBytes
  transition t1 .success

/-- The callback of `_resolveToken`: when the auth token arrives, issue
the prepared network call if still RUNNING, finish the pause/cancel
transition if a control operation raced with token resolution, and do
nothing in other states. -/
def tokenArrival (t : UploadTask) : UploadTask :=
  match t.pendingToken with
  | none => t
  | some call =>
    let t1 := { t with pendingToken := none }
    match t1.state with
    | .running =>
        { t1 with request := some ⟨call, false⟩,
                  outstanding := t1.outstanding + 1,
                  issued := t1.issued ++ [call] }
    | .canceling => transition t1 .canceled
    | .pausing => transition t1 .paused
    | _ => t1

/-- `resume()`. -/
def resume (t : UploadTask) : UploadTask × Bool :=
  if t.state = .paused ∨ t.state = .pausing then
    (transition t .running, true)
  else (t, false)

/-- `pause()`. -/
def pause (t : UploadTask) : UploadTask × Bool :=
  if t.state = .running then (transition t .pausing, true)
  else (t, false)

/-- `cancel()`. -/
def cancel (t : UploadTask) : UploadTask × Bool :=
  if t.state = .running ∨ t.state = .pausing then
    (transition t .canceling, true)
  else (t, false)

/-- Observer-side event of one scheduled delivery: the argument the
handler is bound to at scheduling time. -/
inductive ObserverEvent
  | progress (snap : UploadTaskSnapshot)
  | complete
  | errorEv (e : Option FirebaseStorageError)
deriving DecidableEq, Repr

/-- `_notifyObserver`: the delivery scheduled for one observer at the
current external state, `none` when the observer lacks the handler of the
selected channel. -/
def notifyObserver (t : UploadTask) (o : StorageObserver) :
    Option ObserverEvent :=
  match taskStateFromInternalTaskState t.state with
  | .Running => if o.hasNext then some (.progress t.snapshot) else none
  | .Paused => if o.hasNext then some (.progress t.snapshot) else none
  | .Success => if o.hasComplete then some .complete else none
  | .Canceled => if o.hasError then some (.errorEv t.error) else none
  | .Error => if o.hasError then some (.errorEv t.error) else none

/-- `_addObserver` (the effect of `on()`): append the registration and
immediately schedule its notification at the current state. -/
def addObserver (t : UploadTask) (o : StorageObserver) :
    UploadTask × Option ObserverEvent :=
  let t1 := { t with observers := t.observers ++ [o] }
  (t1, notifyObserver t1 o)

/-- `_removeObserver`: `indexOf` plus `splice`, removing the first
matching registration and ignoring observers that are not present. -/
def removeFirstObs (o : StorageObserver) :
    List StorageObserver → List StorageObserver
  | [] => []
  | x :: xs => if x = o then xs else x :: removeFirstObs o xs

/-- `_removeObserver` on the task. -/
def removeObserver (t : UploadTask) (o : StorageObserver) : UploadTask :=
  { t with observers := removeFirstObs o t.observers }

/-- `_notifyObservers` with the scheduled deliveries made explicit: run
`_finishPromise`, take a snapshot (`slice()`) of the observer list, and
schedule one delivery per observer in that snapshot, each with its
argument bound at scheduling time. -/
def notifyPass (t : UploadTask) :
    UploadTask × List (StorageObserver × Option ObserverEvent) :=
  let t1 := finishPromise t
  (t1, t1.observers.map fun o => (o, notifyObserver t1 o))

/-- A notification pass followed by the observer callbacks it scheduled,
each callback an arbitrary state mutation (it may unsubscribe itself or
others); the callbacks run strictly after the pass because `fbsAsync`
defers them. -/
def runPassWithEffects (t : UploadTask)
    (effect : StorageObserver → UploadTask → UploadTask) :
    UploadTask × List (StorageObserver × Option ObserverEvent) :=
  let p := notifyPass t
  (p.2.foldl (fun acc d => effect d.1 acc) p.1, p.2)

end UploadTask

open UploadTask

/-- A backend response, as far as the engine's completion callbacks
inspect it. -/
inductive NetResp
  | url (u : Nat)
  | status (current : Nat) (finalized : Bool) (metadata : Option Nat)
  | meta (m : Nat)
deriving DecidableEq, Repr

/-- The events that drive one engine: the three control operations, the
arrival of an auth token for a prepared step, and the success or failure
completion of the outstanding network call.  A completion event with no
outstanding request, or whose payload does not fit the outstanding call,
is not deliverable and leaves the task unchanged. -/
inductive TaskEv
  | pauseReq
  | resumeReq
  | cancelReq
  | token
  | netOk (r : NetResp)
  | netErr (e : FirebaseStorageError)
deriving DecidableEq, Repr

/-- Apply one event to the task.  A completion consumes the outstanding
call (decrementing `outstanding`) and runs the callback the source
attached to that request's promise: the per-kind success callback, the
`_metadataErrorHandler` for the metadata fetch, and the `_errorHandler`
for every other call. -/
def applyEvent (t : UploadTask) (ev : TaskEv) : UploadTask :=
  match ev with
  | .pauseReq => (t.pause).1
  | .resumeReq => (t.resume).1
  | .cancelReq => (t.cancel).1
  | .token => t.tokenArrival
  | .netOk r =>
    match t.request with
    | none => t
    | some req =>
      let t1 := { t with outstanding := t.outstanding - 1 }
      match req.call, r with
      | .createResumable, .url u => createResumableOk t1 u
      | .fetchStatus, .status c f _ => fetchStatusOk t1 c f
      | .continueChunk _ _, .status c f m => continueOk t1 c f m
      | .fetchMetadata, .meta m => fetchMetadataOk t1 m
      | .oneShot, .meta m => oneShotOk t1 m
      | _, _ => t
  | .netErr e =>
    match t.request with
    | none => t
    | some req =>
      let t1 := { t with outstanding := t.outstanding - 1 }
      match req.call with
      | .fetchMetadata => metadataErrorHandler t1 e
      | _ => errorHandler t1 e

/-- The constructor: initialize the fields as the class does (resumable
iff the payload exceeds 256 KiB) and call `_start` from the promise
executor. -/
def initTask (total baseChunk : Nat) : UploadTask :=
  UploadTask.start
    { totalBytes := total
      baseChunkSize := baseChunk
      transferred := 0
      needToFetchStatus := false
      needToFetchMetadata := false
      observers := []
      resumable := decide (256 * 1024 < total)
      state := .running
      error := none
      uploadUrl := none
      request := none
      chunkMultiplier := 1
      metadata := none
      promise := .pending
      outstanding := 0
      pendingToken := none
      issued := [] }

/-- Run a sequence of events from a task state. -/
def runEvents (t : UploadTask) (evs : List TaskEv) : UploadTask :=
  evs.foldl applyEvent t

/-- Modelled from the spec: the response behavior of an honest backend
with no failures (`requests.ts` with the transport is not under src/).
`createSession` returns a session URL; `continue` acknowledges the sent
chunk — the engine sends `min(chunkSize, bytes left)` bytes from the
offset — reporting the new transferred count and finalizing with metadata
exactly when all `totalBytes` are in; `oneShot` and `fetchMetadata`
return metadata. -/
def honestResponse (t : UploadTask) : NetCall → NetResp
  | .createResumable => .url 1
  | .fetchStatus =>
      .status t.transferred (decide (t.transferred = t.totalBytes)) none
  | .continueChunk chunkSize offset =>
      let cur := min (offset + chunkSize) t.totalBytes
      .status cur (decide (cur = t.totalBytes))
        (if cur = t.totalBytes then some 0 else none)
  | .fetchMetadata => .meta 0
  | .oneShot => .meta 0

/-- One scheduler step of a failure-free run with no control operations:
deliver the pending auth token if one is awaited, otherwise complete the
outstanding network call with the honest backend's response, otherwise
do nothing. -/
def driveStep (t : UploadTask) : UploadTask :=
  if t.pendingToken.isSome then t.tokenArrival
  else
    match t.request with
    | some r => applyEvent t (.netOk (honestResponse t r.call))
    | none => t

/-- Iterate `driveStep`. -/
def driveN : Nat → UploadTask → UploadTask
  | 0, t => t
  | n + 1, t => driveN n (driveStep t)

namespace UploadTask

@[simp]
theorem finishPromise_state (t : UploadTask) :
    (finishPromise t).state = t.state := by
  unfold finishPromise
  split
  all_goals try split
  all_goals rfl

@[simp]
theorem finishPromise_request (t : UploadTask) :
    (finishPromise t).request = t.request := by
  unfold finishPromise
  split
  all_goals try split
  all_goals rfl

@[simp]
theorem finishPromise_pendingToken (t : UploadTask) :
    (finishPromise t).pendingToken = t.pendingToken := by
  unfold finishPromise
  split
  all_goals try split
  all_goals rfl

@[simp]
theorem finishPromise_outstanding (t : UploadTask) :
    (finishPromise t).outstanding = t.outstanding := by
  unfold finishPromise
  split
  all_goals try split
  all_goals rfl

@[simp]
theorem finishPromise_issued (t : UploadTask) :
    (finishPromise t).issued = t.issued := by
  unfold finishPromise
  split
  all_goals try split
  all_goals rfl

@[simp]
theorem finishPromise_error (t : UploadTask) :
    (finishPromise t).error = t.error := by
  unfold finishPromise
  split
  all_goals try split
  all_goals rfl

@[simp]
theorem finishPromise_transferred (t : UploadTask) :
    (finishPromise t).transferred = t.transferred := by
  unfold finishPromise
  split
  all_goals try split
  all_goals rfl

@[simp]
theorem finishPromise_needToFetchStatus (t : UploadTask) :
    (finishPromise t).needToFetchStatus = t.needToFetchStatus := by
  unfold finishPromise
  split
  all_goals try split
  all_goals rfl

@[simp]
theorem finishPromise_needToFetchMetadata (t : UploadTask) :
    (finishPromise t).needToFetchMetadata = t.needToFetchMetadata := by
  unfold finishPromise
  split
  all_goals try split
  all_goals rfl

@[simp]
theorem finishPromise_chunkMultiplier (t : UploadTask) :
    (finishPromise t).chunkMultiplier = t.chunkMultiplier := by
  unfold finishPromise
  split
  all_goals try split
  all_goals rfl

@[simp]
theorem finishPromise_uploadUrl (t : UploadTask) :
    (finishPromise t).uploadUrl = t.uploadUrl := by
  unfold finishPromise
  split
  all_goals try split
  all_goals rfl

@[simp]
theorem finishPromise_observers (t : UploadTask) :
    (finishPromise t).observers = t.observers := by
  unfold finishPromise
  split
  all_goals try split
  all_goals rfl

@[simp]
theorem finishPromise_metadata (t : UploadTask) :
    (finishPromise t).metadata = t.metadata := by
  unfold finishPromise
  split
  all_goals try split
  all_goals rfl

@[simp]
theorem finishPromise_resumable (t : UploadTask) :
    (finishPromise t).resumable = t.resumable := by
  unfold finishPromise
  split
  all_goals try split
  all_goals rfl

@[simp]
theorem finishPromise_totalBytes (t : UploadTask) :
    (finishPromise t).totalBytes = t.totalBytes := by
  unfold finishPromise
  split
  all_goals try split
  all_goals rfl

@[simp]
theorem finishPromise_baseChunkSize (t : UploadTask) :
    (finishPromise t).baseChunkSize = t.baseChunkSize := by
  unfold finishPromise
  split
  all_goals try split
  all_goals rfl

/-- `_finishPromise` is inert once the handlers have been nulled. -/
theorem finishPromise_of_not_pending (t : UploadTask)
    (h : t.promise ≠ .pending) : finishPromise t = t := by
  unfold finishPromise
  cases hp : t.promise <;> simp_all

@[simp]
theorem start_pendingToken_isSome (t : UploadTask) :
    (start t).pendingToken.isSome =
      (t.pendingToken.isSome || (t.state = .running && t.request = none)) := by
  unfold start
  split
  · simp_all
  · split <;> simp_all

@[simp]
theorem start_state (t : UploadTask) : (start t).state = t.state := by
  unfold start
  split
  · rfl
  · split <;> rfl

@[simp]
theorem start_request (t : UploadTask) : (start t).request = t.request := by
  unfold start
  split
  · rfl
  · split <;> rfl

@[simp]
theorem start_outstanding (t : UploadTask) :
    (start t).outstanding = t.outstanding := by
  unfold start
  split
  · rfl
  · split <;> rfl

@[simp]
theorem start_issued (t : UploadTask) : (start t).issued = t.issued := by
  unfold start
  split
  · rfl
  · split <;> rfl

@[simp]
theorem start_promise (t : UploadTask) : (start t).promise = t.promise := by
  unfold start
  split
  · rfl
  · split <;> rfl

@[simp]
theorem start_error (t : UploadTask) : (start t).error = t.error := by
  unfold start
  split
  · rfl
  · split <;> rfl

@[simp]
theorem start_transferred (t : UploadTask) :
    (start t).transferred = t.transferred := by
  unfold start
  split
  · rfl
  · split <;> rfl

@[simp]
theorem start_chunkMultiplier (t : UploadTask) :
    (start t).chunkMultiplier = t.chunkMultiplier := by
  unfold start
  split
  · rfl
  · split <;> rfl

@[simp]
theorem start_needToFetchStatus (t : UploadTask) :
    (start t).needToFetchStatus = t.needToFetchStatus := by
  unfold start
  split
  · rfl
  · split <;> rfl

@[simp]
theorem start_observers (t : UploadTask) :
    (start t).observers = t.observers := by
  unfold start
  split
  · rfl
  · split <;> rfl

@[simp]
theorem cancelOutstanding_request_isSome (t : UploadTask) :
    (cancelOutstanding t).request.isSome = t.request.isSome := by
  unfold cancelOutstanding
  split <;> simp_all

@[simp]
theorem cancelOutstanding_state (t : UploadTask) :
    (cancelOutstanding t).state = t.state := by
  unfold cancelOutstanding
  split <;> rfl

@[simp]
theorem cancelOutstanding_pendingToken (t : UploadTask) :
    (cancelOutstanding t).pendingToken = t.pendingToken := by
  unfold cancelOutstanding
  split <;> rfl

@[simp]
theorem cancelOutstanding_outstanding (t : UploadTask) :
    (cancelOutstanding t).outstanding = t.outstanding := by
  unfold cancelOutstanding
  split <;> rfl

@[simp]
theorem cancelOutstanding_issued (t : UploadTask) :
    (cancelOutstanding t).issued = t.issued := by
  unfold cancelOutstanding
  split <;> rfl

@[simp]
theorem cancelOutstanding_promise (t : UploadTask) :
    (cancelOutstanding t).promise = t.promise := by
  unfold cancelOutstanding
  split <;> rfl

@[simp]
theorem cancelOutstanding_error (t : UploadTask) :
    (cancelOutstanding t).error = t.error := by
  unfold cancelOutstanding
  split <;> rfl

@[simp]
theorem updateProgress_state (t : UploadTask) (n : Nat) :
    (updateProgress t n).state = t.state := by
  unfold updateProgress
  dsimp only
  split <;> simp [notifyObservers]

@[simp]
theorem updateProgress_request (t : UploadTask) (n : Nat) :
    (updateProgress t n).request = t.request := by
  unfold updateProgress
  dsimp only
  split <;> simp [notifyObservers]

@[simp]
theorem updateProgress_pendingToken (t : UploadTask) (n : Nat) :
    (updateProgress t n).pendingToken = t.pendingToken := by
  unfold updateProgress
  dsimp only
  split <;> simp [notifyObservers]

@[simp]
theorem updateProgress_outstanding (t : UploadTask) (n : Nat) :
    (updateProgress t n).outstanding = t.outstanding := by
  unfold updateProgress
  dsimp only
  split <;> simp [notifyObservers]

@[simp]
theorem updateProgress_issued (t : UploadTask) (n : Nat) :
    (updateProgress t n).issued = t.issued := by
  unfold updateProgress
  dsimp only
  split <;> simp [notifyObservers]

@[simp]
theorem updateProgress_transferred (t : UploadTask) (n : Nat) :
    (updateProgress t n).transferred = n := by
  unfold updateProgress
  dsimp only
  split <;> simp [notifyObservers]

@[simp]
theorem updateProgress_chunkMultiplier (t : UploadTask) (n : Nat) :
    (updateProgress t n).chunkMultiplier = t.chunkMultiplier := by
  unfold updateProgress
  dsimp only
  split <;> simp [notifyObservers]

@[simp]
theorem updateProgress_uploadUrl (t : UploadTask) (n : Nat) :
    (updateProgress t n).uploadUrl = t.uploadUrl := by
  unfold updateProgress
  dsimp only
  split <;> simp [notifyObservers]

@[simp]
theorem updateProgress_resumable (t : UploadTask) (n : Nat) :
    (updateProgress t n).resumable = t.resumable := by
  unfold updateProgress
  dsimp only
  split <;> simp [notifyObservers]

@[simp]
theorem updateProgress_needToFetchStatus (t : UploadTask) (n : Nat) :
    (updateProgress t n).needToFetchStatus = t.needToFetchStatus := by
  unfold updateProgress
  dsimp only
  split <;> simp [notifyObservers]

@[simp]
theorem updateProgress_needToFetchMetadata (t : UploadTask) (n : Nat) :
    (updateProgress t n).needToFetchMetadata = t.needToFetchMetadata := by
  unfold updateProgress
  dsimp only
  split <;> simp [notifyObservers]

@[simp]
theorem updateProgress_metadata (t : UploadTask) (n : Nat) :
    (updateProgress t n).metadata = t.metadata := by
  unfold updateProgress
  dsimp only
  split <;> simp [notifyObservers]

@[simp]
theorem increaseMultiplier_state (t : UploadTask) :
    (increaseMultiplier t).state = t.state := by
  unfold increaseMultiplier
  dsimp only
  split <;> rfl

@[simp]
theorem increaseMultiplier_request (t : UploadTask) :
    (increaseMultiplier t).request = t.request := by
  unfold increaseMultiplier
  dsimp only
  split <;> rfl

@[simp]
theorem increaseMultiplier_pendingToken (t : UploadTask) :
    (increaseMultiplier t).pendingToken = t.pendingToken := by
  unfold increaseMultiplier
  dsimp only
  split <;> rfl

@[simp]
theorem increaseMultiplier_outstanding (t : UploadTask) :
    (increaseMultiplier t).outstanding = t.outstanding := by
  unfold increaseMultiplier
  dsimp only
  split <;> rfl

@[simp]
theorem increaseMultiplier_issued (t : UploadTask) :
    (increaseMultiplier t).issued = t.issued := by
  unfold increaseMultiplier
  dsimp only
  split <;> rfl

@[simp]
theorem increaseMultiplier_transferred (t : UploadTask) :
    (increaseMultiplier t).transferred = t.transferred := by
  unfold increaseMultiplier
  dsimp only
  split <;> rfl

@[simp]
theorem increaseMultiplier_uploadUrl (t : UploadTask) :
    (increaseMultiplier t).uploadUrl = t.uploadUrl := by
  unfold increaseMultiplier
  dsimp only
  split <;> rfl

@[simp]
theorem increaseMultiplier_resumable (t : UploadTask) :
    (increaseMultiplier t).resumable = t.resumable := by
  unfold increaseMultiplier
  dsimp only
  split <;> rfl

@[simp]
theorem increaseMultiplier_needToFetchStatus (t : UploadTask) :
    (increaseMultiplier t).needToFetchStatus = t.needToFetchStatus := by
  unfold increaseMultiplier
  dsimp only
  split <;> rfl

@[simp]
theorem increaseMultiplier_needToFetchMetadata (t : UploadTask) :
    (increaseMultiplier t).needToFetchMetadata = t.needToFetchMetadata := by
  unfold increaseMultiplier
  dsimp only
  split <;> rfl

@[simp]
theorem increaseMultiplier_totalBytes (t : UploadTask) :
    (increaseMultiplier t).totalBytes = t.totalBytes := by
  unfold increaseMultiplier
  dsimp only
  split <;> rfl

@[simp]
theorem increaseMultiplier_baseChunkSize (t : UploadTask) :
    (increaseMultiplier t).baseChunkSize = t.baseChunkSize := by
  unfold increaseMultiplier
  dsimp only
  split <;> rfl

end UploadTask

/-- A concrete mid-upload task used by witnesses: resumable, session
created, idle in RUNNING. -/
def sampleBase : UploadTask :=
  { totalBytes := 300000
    baseChunkSize := 262144
    transferred := 0
    needToFetchStatus := false
    needToFetchMetadata := false
    observers := []
    resumable := true
    state := .running
    error := none
    uploadUrl := some 1
    request := none
    chunkMultiplier := 1
    metadata := none
    promise := .pending
    outstanding := 0
    pendingToken := none
    issued := [.createResumable] }

/-- Claim C1: when an outstanding network call completes with the
distinguished canceled outcome, `_errorHandler` transitions by the current
state — PAUSING becomes PAUSED (not ERROR), CANCELING becomes CANCELED,
and RUNNING stays RUNNING, sets the need-status-refetch flag and
immediately re-drives the step loop (a next step is dispatched); any
non-cancellation failure in RUNNING, PAUSING or CANCELING transitions to
ERROR with the failure stored as the error. -/
theorem claim_C1_canceled_completion_transitions (t : UploadTask)
    (e : FirebaseStorageError) :
    (e.code = .canceledCode → t.state = .pausing →
      (t.errorHandler e).state = .paused) ∧
    (e.code = .canceledCode → t.state = .canceling →
      (t.errorHandler e).state = .canceled) ∧
    (e.code = .canceledCode → t.state = .running →
      (t.errorHandler e).state = .running ∧
      (t.errorHandler e).needToFetchStatus = true ∧
      (t.errorHandler e).pendingToken.isSome = true) ∧
    (e.code ≠ .canceledCode →
      t.state = .running ∨ t.state = .pausing ∨ t.state = .canceling →
      (t.errorHandler e).state = .error ∧
      (t.errorHandler e).error = some e) := by
  refine ⟨?_, ?_, ?_, ?_⟩
  · intro he hs
    simp [errorHandler, he, hs, completeTransitions, transition,
      notifyObservers]
  · intro he hs
    simp [errorHandler, he, hs, completeTransitions, transition,
      notifyObservers]
  · intro he hs
    simp [errorHandler, he, hs, completeTransitions, transition,
      notifyObservers, start]
  · intro he hs
    rcases hs with hs | hs | hs <;>
      simp [errorHandler, he, hs, completeTransitions, transition,
        notifyObservers]

/-- Witness for C1: a canceled completion while PAUSING yields PAUSED, and
a non-canceled failure while RUNNING yields ERROR. -/
theorem claim_C1_witness :
    (({ sampleBase with state := .pausing } : UploadTask).errorHandler
      canceledError).state = .paused ∧
    (sampleBase.errorHandler ⟨.otherCode, 5⟩).state = .error :=
  ⟨(claim_C1_canceled_completion_transitions
      { sampleBase with state := .pausing } canceledError).1 rfl rfl,
   ((claim_C1_canceled_completion_transitions sampleBase
      ⟨.otherCode, 5⟩).2.2.2 (by decide) (Or.inl rfl)).1⟩

/-- Claim C2: the completion future settles exactly once, at the first
terminal transition — a transition to SUCCESS resolves it with a snapshot,
a transition to CANCELED or ERROR rejects it with the stored error, and
once settled (handlers nulled) neither `_finishPromise` nor any further
transition changes the settlement. -/
theorem claim_C2_promise_settles_once (t : UploadTask) :
    (t.promise ≠ .pending → t.finishPromise = t) ∧
    (∀ s, t.promise ≠ .pending → (t.transition s).promise = t.promise) ∧
    (t.promise = .pending → t.state ≠ .success →
      (t.transition .success).promise =
        .resolved ({ t with state := .success } : UploadTask).snapshot) ∧
    (t.promise = .pending → t.state ≠ .canceled →
      (t.transition .canceled).promise = .rejected (some canceledError)) ∧
    (t.promise = .pending → t.state ≠ .error →
      (t.transition .error).promise = .rejected t.error) := by
  refine ⟨fun h => finishPromise_of_not_pending t h, ?_, ?_, ?_, ?_⟩
  · intro s h
    unfold transition
    split
    · rfl
    · cases s <;>
        simp_all [notifyObservers, finishPromise_of_not_pending,
          cancelOutstanding] <;>
        (try split) <;>
        simp_all [finishPromise_of_not_pending]
  · intro hp hs
    simp [transition, hs, notifyObservers, finishPromise, hp,
      taskStateFromInternalTaskState]
  · intro hp hs
    simp [transition, hs, notifyObservers, finishPromise, hp,
      taskStateFromInternalTaskState]
  · intro hp hs
    simp [transition, hs, notifyObservers, finishPromise, hp,
      taskStateFromInternalTaskState]

/-- Witness for C2: a settled future is left untouched, and a SUCCESS
transition of a pending task resolves it with the snapshot. -/
theorem claim_C2_witness :
    (({ sampleBase with promise := .rejected none } : UploadTask).finishPromise
      = { sampleBase with promise := .rejected none }) ∧
    (sampleBase.transition .success).promise =
      .resolved ({ sampleBase with state := .success } : UploadTask).snapshot :=
  ⟨(claim_C2_promise_settles_once
      { sampleBase with promise := .rejected none }).1 (by decide),
   (claim_C2_promise_settles_once sampleBase).2.2.1 rfl (by decide)⟩

/-- Claim C6: `pause()`, `resume()` and `cancel()` return true exactly
when the current state permits the transition (pause: RUNNING; resume:
PAUSED or PAUSING; cancel: RUNNING or PAUSING) and are no-ops returning
false otherwise; the second of two consecutive `pause()` calls returns
false, and `resume()` after CANCELED returns false. -/
theorem claim_C6_control_ops_validity (t : UploadTask) :
    ((t.pause).2 = true ↔ t.state = .running) ∧
    ((t.resume).2 = true ↔ (t.state = .paused ∨ t.state = .pausing)) ∧
    ((t.cancel).2 = true ↔ (t.state = .running ∨ t.state = .pausing)) ∧
    (t.state ≠ .running → t.pause = (t, false)) ∧
    (t.state ≠ .paused → t.state ≠ .pausing → t.resume = (t, false)) ∧
    (t.state ≠ .running → t.state ≠ .pausing → t.cancel = (t, false)) ∧
    (t.state = .running → ((t.pause).1.pause).2 = false) ∧
    (t.state = .canceled → t.resume = (t, false)) := by
  refine ⟨?_, ?_, ?_, ?_, ?_, ?_, ?_, ?_⟩
  · by_cases h : t.state = .running <;> simp [pause, h]
  · by_cases h : t.state = .paused ∨ t.state = .pausing <;> simp_all [resume]
  · by_cases h : t.state = .running ∨ t.state = .pausing <;> simp_all [cancel]
  · intro h
    simp [pause, h]
  · intro h1 h2
    simp [resume, h1, h2]
  · intro h1 h2
    simp [cancel, h1, h2]
  · intro h
    have h1 : ((t.pause).1).state = .pausing := by
      simp [pause, h, transition]
    obtain ⟨u, hu⟩ : ∃ u, (t.pause).1 = u := ⟨_, rfl⟩
    rw [hu] at h1 ⊢
    simp [pause, h1]
  · intro h
    simp [resume, h]

/-- Witness for C6: a second consecutive pause returns false, and resume
on a CANCELED task is a no-op returning false. -/
theorem claim_C6_witness :
    (((sampleBase.pause).1.pause).2 = false) ∧
    ({ sampleBase with state := .canceled } : UploadTask).resume
      = ({ sampleBase with state := .canceled }, false) :=
  ⟨(claim_C6_control_ops_validity sampleBase).2.2.2.2.2.2.1 rfl,
   (claim_C6_control_ops_validity
      { sampleBase with state := .canceled }).2.2.2.2.2.2.2 rfl⟩

namespace UploadTask

@[simp]
theorem cancelOutstanding_chunkMultiplier (t : UploadTask) :
    (cancelOutstanding t).chunkMultiplier = t.chunkMultiplier := by
  unfold cancelOutstanding
  split <;> rfl

@[simp]
theorem cancelOutstanding_transferred (t : UploadTask) :
    (cancelOutstanding t).transferred = t.transferred := by
  unfold cancelOutstanding
  split <;> rfl

@[simp]
theorem cancelOutstanding_needToFetchStatus (t : UploadTask) :
    (cancelOutstanding t).needToFetchStatus = t.needToFetchStatus := by
  unfold cancelOutstanding
  split <;> rfl

@[simp]
theorem cancelOutstanding_observers (t : UploadTask) :
    (cancelOutstanding t).observers = t.observers := by
  unfold cancelOutstanding
  split <;> rfl

@[simp]
theorem transition_chunkMultiplier (t : UploadTask) (s : InternalTaskState) :
    (transition t s).chunkMultiplier = t.chunkMultiplier := by
  unfold transition
  split
  · rfl
  · cases s <;> dsimp only <;> (try split) <;> simp [notifyObservers]

@[simp]
theorem transition_issued (t : UploadTask) (s : InternalTaskState) :
    (transition t s).issued = t.issued := by
  unfold transition
  split
  · rfl
  · cases s <;> dsimp only <;> (try split) <;> simp [notifyObservers]

@[simp]
theorem transition_outstanding (t : UploadTask) (s : InternalTaskState) :
    (transition t s).outstanding = t.outstanding := by
  unfold transition
  split
  · rfl
  · cases s <;> dsimp only <;> (try split) <;> simp [notifyObservers]

@[simp]
theorem transition_request_isSome (t : UploadTask) (s : InternalTaskState) :
    (transition t s).request.isSome = t.request.isSome := by
  unfold transition
  split
  · rfl
  · cases s <;> dsimp only <;> (try split) <;> simp [notifyObservers]

@[simp]
theorem completeTransitions_chunkMultiplier (t : UploadTask) :
    (completeTransitions t).chunkMultiplier = t.chunkMultiplier := by
  unfold completeTransitions
  split <;> simp

@[simp]
theorem completeTransitions_issued (t : UploadTask) :
    (completeTransitions t).issued = t.issued := by
  unfold completeTransitions
  split <;> simp

@[simp]
theorem completeTransitions_outstanding (t : UploadTask) :
    (completeTransitions t).outstanding = t.outstanding := by
  unfold completeTransitions
  split <;> simp

end UploadTask

/-- Claim C8: delivery of a notification pass operates over a snapshot of
the observer list taken at the start of the pass, so removals during the
pass — including an observer unsubscribing itself from within its own
callback — do not prevent any other observer registered at the start of
the pass from receiving that same event. -/
theorem claim_C8_pass_snapshot_isolation (t : UploadTask)
    (effect : StorageObserver → UploadTask → UploadTask) :
    ((t.runPassWithEffects effect).2 =
      t.observers.map fun o => (o, notifyObserver t.finishPromise o)) ∧
    ∀ o ∈ t.observers,
      (o, notifyObserver t.finishPromise o) ∈
        (t.runPassWithEffects effect).2 := by
  have hpass : (t.runPassWithEffects effect).2 =
      t.observers.map fun o => (o, notifyObserver t.finishPromise o) := by
    simp [runPassWithEffects, notifyPass]
  refine ⟨hpass, fun o ho => ?_⟩
  rw [hpass]
  exact List.mem_map.mpr ⟨o, ho, rfl⟩

/-- Witness for C8: with two full observers registered, an effect in
which every observer unsubscribes itself during its callback still lets
the second observer receive the event of that pass. -/
theorem claim_C8_witness :
    ((⟨1, true, true, true⟩ : StorageObserver),
      notifyObserver
        ({ sampleBase with
            observers := [⟨0, true, true, true⟩, ⟨1, true, true, true⟩] } :
          UploadTask).finishPromise ⟨1, true, true, true⟩) ∈
      (({ sampleBase with
            observers := [⟨0, true, true, true⟩, ⟨1, true, true, true⟩] } :
          UploadTask).runPassWithEffects
        fun o u => u.removeObserver o).2 :=
  (claim_C8_pass_snapshot_isolation
      { sampleBase with
          observers := [⟨0, true, true, true⟩, ⟨1, true, true, true⟩] }
      fun o u => u.removeObserver o).2
    ⟨1, true, true, true⟩ (by decide)

/-- Claim C9: every observer registered via `on()` is immediately
notified with the engine's current state — progress when the external
state is RUNNING or PAUSED, complete when SUCCESS, error when CANCELED or
ERROR — so a subscriber registering after a terminal transition still
receives the terminal event (whenever it carries the matching handler). -/
theorem claim_C9_immediate_notification (t : UploadTask)
    (o : StorageObserver) :
    ((t.addObserver o).1.observers = t.observers ++ [o]) ∧
    ((taskStateFromInternalTaskState t.state = .Running ∨
        taskStateFromInternalTaskState t.state = .Paused) →
      o.hasNext = true →
      (t.addObserver o).2 = some (.progress t.snapshot)) ∧
    (taskStateFromInternalTaskState t.state = .Success →
      o.hasComplete = true →
      (t.addObserver o).2 = some .complete) ∧
    ((taskStateFromInternalTaskState t.state = .Canceled ∨
        taskStateFromInternalTaskState t.state = .Error) →
      o.hasError = true →
      (t.addObserver o).2 = some (.errorEv t.error)) := by
  refine ⟨by simp [addObserver], ?_, ?_, ?_⟩
  · intro h ho
    rcases h with h | h <;> simp [addObserver, notifyObserver, h, ho, snapshot]
  · intro h ho
    simp [addObserver, notifyObserver, h, ho]
  · intro h ho
    rcases h with h | h <;> simp [addObserver, notifyObserver, h, ho]

/-- Witness for C9: an observer registered after the engine reached
CANCELED immediately receives the error notification with the stored
error. -/
theorem claim_C9_witness :
    (({ sampleBase with state := .canceled, error := some canceledError } :
        UploadTask).addObserver ⟨7, true, true, true⟩).2 =
      some (.errorEv (some canceledError)) :=
  (claim_C9_immediate_notification
      { sampleBase with state := .canceled, error := some canceledError }
      ⟨7, true, true, true⟩).2.2.2 (Or.inl rfl) rfl

/-- Claim C10: `_errorHandler` — which handles every non-metadata network
call, including the cancellation caused by `pause()` interrupting an
in-flight call — always resets the chunk multiplier to 1, so the first
continue call prepared afterwards (once the status refetch has cleared)
requests the base chunk size. -/
theorem claim_C10_multiplier_reset (t : UploadTask)
    (e : FirebaseStorageError) :
    ((t.errorHandler e).chunkMultiplier = 1) ∧
    (∀ u : UploadTask, u.chunkMultiplier = 1 → u.resumable = true →
      u.uploadUrl.isSome = true → u.needToFetchStatus = false →
      u.needToFetchMetadata = false →
      u.nextStep = .continueChunk u.baseChunkSize u.transferred) := by
  constructor
  · by_cases he : e.code = .canceledCode <;> simp [errorHandler, he]
  · intro u hm hr hu hs hmd
    obtain ⟨v, hv⟩ := Option.isSome_iff_exists.mp hu
    simp [nextStep, hm, hr, hv, hs, hmd]

/-- Witness for C10: a canceled completion resets a grown multiplier, and
an idle resumable task with multiplier 1 prepares a base-size chunk. -/
theorem claim_C10_witness :
    (({ sampleBase with chunkMultiplier := 8 } : UploadTask).errorHandler
      canceledError).chunkMultiplier = 1 ∧
    sampleBase.nextStep = .continueChunk 262144 0 :=
  ⟨(claim_C10_multiplier_reset
      { sampleBase with chunkMultiplier := 8 } canceledError).1,
   (claim_C10_multiplier_reset sampleBase canceledError).2 sampleBase rfl rfl
      rfl rfl rfl⟩

namespace UploadTask

theorem iterate_increase_baseChunkSize (t : UploadTask) (N : Nat) :
    ((increaseMultiplier^[N]) t).baseChunkSize = t.baseChunkSize := by
  induction N with
  | zero => rfl
  | succ n ih => rw [Function.iterate_succ_apply']; simp [ih]

theorem iterate_increase_transferred (t : UploadTask) (N : Nat) :
    ((increaseMultiplier^[N]) t).transferred = t.transferred := by
  induction N with
  | zero => rfl
  | succ n ih => rw [Function.iterate_succ_apply']; simp [ih]

theorem iterate_increase_resumable (t : UploadTask) (N : Nat) :
    ((increaseMultiplier^[N]) t).resumable = t.resumable := by
  induction N with
  | zero => rfl
  | succ n ih => rw [Function.iterate_succ_apply']; simp [ih]

theorem iterate_increase_uploadUrl (t : UploadTask) (N : Nat) :
    ((increaseMultiplier^[N]) t).uploadUrl = t.uploadUrl := by
  induction N with
  | zero => rfl
  | succ n ih => rw [Function.iterate_succ_apply']; simp [ih]

theorem iterate_increase_needToFetchStatus (t : UploadTask) (N : Nat) :
    ((increaseMultiplier^[N]) t).needToFetchStatus = t.needToFetchStatus := by
  induction N with
  | zero => rfl
  | succ n ih => rw [Function.iterate_succ_apply']; simp [ih]

theorem iterate_increase_needToFetchMetadata (t : UploadTask) (N : Nat) :
    ((increaseMultiplier^[N]) t).needToFetchMetadata =
      t.needToFetchMetadata := by
  induction N with
  | zero => rfl
  | succ n ih => rw [Function.iterate_succ_apply']; simp [ih]

theorem increaseMultiplier_chunkMultiplier (t : UploadTask) :
    (increaseMultiplier t).chunkMultiplier =
      if t.baseChunkSize * t.chunkMultiplier < 32 * 1024 * 1024 then
        t.chunkMultiplier * 2
      else t.chunkMultiplier := by
  unfold increaseMultiplier
  dsimp only
  split <;> rfl

/-- The multiplier after `N` successful continue completions of a task
whose base chunk size is `2 ^ j` (with `j ≤ 25`, i.e. at most 32 MiB):
it doubles until the chunk size reaches the 32 MiB cap. -/
theorem iterate_increase_chunkMultiplier (t : UploadTask) (j : Nat)
    (hj : j ≤ 25) (hb : t.baseChunkSize = 2 ^ j)
    (hm : t.chunkMultiplier = 1) (N : Nat) :
    ((increaseMultiplier^[N]) t).chunkMultiplier = 2 ^ min N (25 - j) := by
  induction N with
  | zero => simpa using hm
  | succ n ih =>
    rw [Function.iterate_succ_apply', increaseMultiplier_chunkMultiplier,
      iterate_increase_baseChunkSize, hb, ih]
    have h32 : (32 * 1024 * 1024 : Nat) = 2 ^ 25 := by norm_num
    by_cases hN : n < 25 - j
    · rw [if_pos, min_eq_left (by omega), min_eq_left (by omega), ← pow_succ]
      rw [← pow_add, h32]
      exact Nat.pow_lt_pow_right (by norm_num) (by omega)
    · rw [if_neg, min_eq_right (by omega), min_eq_right (by omega)]
      rw [← pow_add, h32]
      have h25 : j + min n (25 - j) = 25 := by omega
      rw [h25]
      exact lt_irrefl _

end UploadTask

/-- Claim C4: after `N` consecutive successful continue completions (each
of which applies `_increaseMultiplier` once) with no intervening failure,
the chunk size requested for continue call `N + 1` equals
`min(32 MiB, baseChunkSize * 2 ^ N)`: the multiplier doubles after each
success and growth is capped so the requested size never exceeds 32 MiB.
Stated for any power-of-two base chunk size of at most 32 MiB, which
covers the 256 KiB constant of the source tree. -/
theorem claim_C4_chunk_growth (t : UploadTask) (N j : Nat)
    (hj : j ≤ 25) (hb : t.baseChunkSize = 2 ^ j)
    (hm : t.chunkMultiplier = 1) :
    (((increaseMultiplier^[N]) t).baseChunkSize *
        ((increaseMultiplier^[N]) t).chunkMultiplier =
      min (32 * 1024 * 1024) (t.baseChunkSize * 2 ^ N)) ∧
    (t.resumable = true → t.uploadUrl.isSome = true →
      t.needToFetchStatus = false → t.needToFetchMetadata = false →
      nextStep ((increaseMultiplier^[N]) t) =
        .continueChunk (min (32 * 1024 * 1024) (t.baseChunkSize * 2 ^ N))
          t.transferred) := by
  have hmain : ((increaseMultiplier^[N]) t).baseChunkSize *
      ((increaseMultiplier^[N]) t).chunkMultiplier =
      min (32 * 1024 * 1024) (t.baseChunkSize * 2 ^ N) := by
    rw [iterate_increase_baseChunkSize,
      iterate_increase_chunkMultiplier t j hj hb hm, hb, ← pow_add, ← pow_add]
    have h32 : 32 * 1024 * 1024 = 2 ^ 25 := by norm_num
    rw [h32]
    rcases le_total (j + N) 25 with h | h
    · rw [min_eq_right (Nat.pow_le_pow_right (by norm_num) h)]
      congr 1
      omega
    · rw [min_eq_left (Nat.pow_le_pow_right (by norm_num) h)]
      congr 1
      omega
  refine ⟨hmain, fun hr hu hs hmd => ?_⟩
  obtain ⟨v, hv⟩ := Option.isSome_iff_exists.mp hu
  rw [← hmain, ← iterate_increase_transferred t N]
  simp [nextStep, iterate_increase_resumable, iterate_increase_uploadUrl,
    iterate_increase_needToFetchStatus, iterate_increase_needToFetchMetadata,
    hr, hv, hs, hmd]

/-- Witness for C4: with the 256 KiB base (2 ^ 18) and three successful
continue completions, the fourth continue call requests 2 MiB. -/
theorem claim_C4_witness :
    (((increaseMultiplier^[3]) sampleBase).baseChunkSize *
        ((increaseMultiplier^[3]) sampleBase).chunkMultiplier =
      min (32 * 1024 * 1024) (sampleBase.baseChunkSize * 2 ^ 3)) ∧
    nextStep ((increaseMultiplier^[3]) sampleBase) =
      .continueChunk (min (32 * 1024 * 1024) (sampleBase.baseChunkSize * 2 ^ 3))
        sampleBase.transferred :=
  ⟨(claim_C4_chunk_growth sampleBase 3 18 (by norm_num) (by decide) rfl).1,
   (claim_C4_chunk_growth sampleBase 3 18 (by norm_num) (by decide) rfl).2
      rfl rfl rfl rfl⟩

/-- Counterexample to claim C5: in the failure-free run of a 10 MiB
payload with base chunk size 4 MiB, the engine completes (the drive
reaches a fixpoint in SUCCESS) after only two continue calls, and no
continue call is issued at offset 8 MiB — the claimed third call at
offset 8 MiB never happens, because the multiplier doubles after the
first successful continue. -/
theorem claim_C5_counterexample :
    ((driveN 6 (initTask 10485760 4194304)).state = .success) ∧
    (driveStep (driveN 6 (initTask 10485760 4194304)) =
      driveN 6 (initTask 10485760 4194304)) ∧
    (((driveN 6 (initTask 10485760 4194304)).issued.countP
        fun c => match c with
          | .continueChunk _ _ => true
          | _ => false) = 2) ∧
    ((driveN 6 (initTask 10485760 4194304)).issued.all
      fun c => match c with
        | .continueChunk _ o => decide (o ≠ 8388608)
        | _ => true) = true := by
  decide

/-- Claim C5 as amended: for a 10 MiB payload with base chunk size 4 MiB
and no failures, the engine issues createSession followed by exactly two
continue calls, at offset 0 with requested chunk 4 MiB and at offset
4 MiB with requested chunk 8 MiB (covering the remaining 6 MiB), ending
in SUCCESS with transferredBytes equal to 10 MiB. -/
theorem claim_C5_ten_mib_run :
    ((driveN 6 (initTask 10485760 4194304)).issued =
      [.createResumable, .continueChunk 4194304 0,
        .continueChunk 8388608 4194304]) ∧
    (driveN 6 (initTask 10485760 4194304)).state = .success ∧
    (driveN 6 (initTask 10485760 4194304)).transferred = 10485760 ∧
    driveStep (driveN 6 (initTask 10485760 4194304)) =
      driveN 6 (initTask 10485760 4194304) := by
  decide

namespace UploadTask

theorem initTask_small (total base : Nat) (h : total ≤ 256 * 1024) :
    initTask total base =
      { totalBytes := total, baseChunkSize := base, transferred := 0,
        needToFetchStatus := false, needToFetchMetadata := false,
        observers := [], resumable := false, state := .running,
        error := none, uploadUrl := none, request := none,
        chunkMultiplier := 1, metadata := none, promise := .pending,
        outstanding := 0, pendingToken := some .oneShot, issued := [] } := by
  have hres : ¬(256 * 1024 < total) := Nat.not_lt.mpr h
  simp [initTask, start, nextStep, hres]

theorem driveN_two_small (total base : Nat) (h : total ≤ 256 * 1024) :
    driveN 2 (initTask total base) =
      { totalBytes := total, baseChunkSize := base, transferred := total,
        needToFetchStatus := false, needToFetchMetadata := false,
        observers := [], resumable := false, state := .success,
        error := none, uploadUrl := none, request := none,
        chunkMultiplier := 1, metadata := some 0,
        promise := .resolved ⟨total, total, .Success, some 0⟩,
        outstanding := 0, pendingToken := none, issued := [.oneShot] } := by
  rw [initTask_small total base h]
  simp [driveN, driveStep, tokenArrival, applyEvent, honestResponse,
    oneShotOk, updateProgress, notifyObservers, finishPromise, transition,
    snapshot, taskStateFromInternalTaskState, completeTransitions]

end UploadTask

namespace UploadTask

theorem transition_pendingToken_canceled (t : UploadTask) :
    (transition t .canceled).pendingToken = t.pendingToken := by
  unfold transition
  split
  · rfl
  · simp [notifyObservers]

theorem transition_pendingToken_paused (t : UploadTask) :
    (transition t .paused).pendingToken = t.pendingToken := by
  unfold transition
  split
  · rfl
  · simp [notifyObservers]

theorem createResumableOk_issued (t : UploadTask) (u : Nat) :
    (createResumableOk t u).issued = t.issued := by
  simp [createResumableOk]

theorem fetchStatusOk_issued (t : UploadTask) (c : Nat) (f : Bool) :
    (fetchStatusOk t c f).issued = t.issued := by
  unfold fetchStatusOk
  dsimp only
  split <;> simp

theorem continueOk_issued (t : UploadTask) (c : Nat) (f : Bool)
    (m : Option Nat) :
    (continueOk t c f m).issued = t.issued := by
  unfold continueOk
  dsimp only
  split <;> simp

theorem fetchMetadataOk_issued (t : UploadTask) (m : Nat) :
    (fetchMetadataOk t m).issued = t.issued := by
  simp [fetchMetadataOk]

theorem oneShotOk_issued (t : UploadTask) (m : Nat) :
    (oneShotOk t m).issued = t.issued := by
  simp [oneShotOk]

theorem applyEvent_netOk_issued (t : UploadTask) (r : NetResp) :
    (applyEvent t (.netOk r)).issued = t.issued := by
  unfold applyEvent
  cases hreq : t.request with
  | none => rfl
  | some req =>
    dsimp only
    cases hc : req.call <;> cases r <;>
      simp [createResumableOk_issued, fetchStatusOk_issued,
        continueOk_issued, fetchMetadataOk_issued, oneShotOk_issued]

/-- Trace invariant of the failure-free drive of a resumable task: while
nothing has been issued no request is outstanding and the only step that
can be prepared is the session creation, and once something has been
issued the first issued call is the session creation. -/
def ResumableTraceInv (t : UploadTask) : Prop :=
  (t.issued = [] → t.request = none ∧
    ∀ c, t.pendingToken = some c → c = NetCall.createResumable) ∧
  (∀ x, t.issued.head? = some x → x = NetCall.createResumable)

theorem opt_eq_none_of_isSome_false {A : Type} (x : Option A)
    (h : x.isSome = false) : x = none := by
  cases x
  · rfl
  · simp at h

theorem resumableTraceInv_driveStep (t : UploadTask)
    (h : ResumableTraceInv t) : ResumableTraceInv (driveStep t) := by
  obtain ⟨h1, h2⟩ := h
  unfold driveStep
  by_cases hp : t.pendingToken.isSome
  · rw [if_pos hp]
    obtain ⟨c, hc⟩ := Option.isSome_iff_exists.mp hp
    unfold tokenArrival
    rw [hc]
    dsimp only
    cases hst : t.state
    · -- running: the prepared call is issued
      refine ⟨fun habs => by simp at habs, fun x hx => ?_⟩
      dsimp only at hx
      by_cases hi : t.issued = []
      · rw [hi] at hx
        simp at hx
        subst hx
        exact (h1 hi).2 c hc
      · rw [List.head?_append_of_ne_nil t.issued hi] at hx
        exact h2 x hx
    · -- pausing: finish the pause transition
      refine ⟨fun hi => ?_, fun x hx => ?_⟩
      · rw [transition_issued] at hi
        dsimp only at hi
        refine ⟨?_, ?_⟩
        · refine opt_eq_none_of_isSome_false _ ?_
          rw [transition_request_isSome]
          simp [(h1 hi).1]
        · intro c2 hc2
          rw [transition_pendingToken_paused] at hc2
          simp at hc2
      · rw [transition_issued] at hx
        exact h2 x hx
    · -- paused (unreachable arm of the switch: nothing happens)
      exact ⟨fun hi => ⟨(h1 hi).1, fun c2 hc2 => by simp at hc2⟩, h2⟩
    · -- canceling: finish the cancel transition
      refine ⟨fun hi => ?_, fun x hx => ?_⟩
      · rw [transition_issued] at hi
        dsimp only at hi
        refine ⟨?_, ?_⟩
        · refine opt_eq_none_of_isSome_false _ ?_
          rw [transition_request_isSome]
          simp [(h1 hi).1]
        · intro c2 hc2
          rw [transition_pendingToken_canceled] at hc2
          simp at hc2
      · rw [transition_issued] at hx
        exact h2 x hx
    · exact ⟨fun hi => ⟨(h1 hi).1, fun c2 hc2 => by simp at hc2⟩, h2⟩
    · exact ⟨fun hi => ⟨(h1 hi).1, fun c2 hc2 => by simp at hc2⟩, h2⟩
    · exact ⟨fun hi => ⟨(h1 hi).1, fun c2 hc2 => by simp at hc2⟩, h2⟩
  · rw [if_neg hp]
    cases hreq : t.request with
    | none => exact ⟨h1, h2⟩
    | some req =>
      refine ⟨fun hi => ?_, fun x hx => ?_⟩
      · rw [applyEvent_netOk_issued] at hi
        exact absurd (h1 hi).1 (by simp [hreq])
      · rw [applyEvent_netOk_issued] at hx
        exact h2 x hx

theorem resumableTraceInv_driveN (n : Nat) :
    ∀ t : UploadTask, ResumableTraceInv t → ResumableTraceInv (driveN n t) := by
  induction n with
  | zero => exact fun t h => h
  | succ m ih =>
      intro t h
      exact ih (driveStep t) (resumableTraceInv_driveStep t h)

theorem resumableTraceInv_init (total base : Nat) (h : 256 * 1024 < total) :
    ResumableTraceInv (initTask total base) := by
  constructor
  · intro hi
    refine ⟨by simp [initTask, start], fun c hc => ?_⟩
    simp [initTask, start, nextStep, h] at hc
    exact hc.symm
  · intro x hx
    simp [initTask, start] at hx

end UploadTask

namespace UploadTask

theorem driveStep_fixpoint (t : UploadTask) (hp : t.pendingToken = none)
    (hr : t.request = none) : driveStep t = t := by
  unfold driveStep
  rw [hp, hr]
  simp

theorem driveN_fixpoint (t : UploadTask) (hstep : driveStep t = t)
    (m : Nat) : driveN m t = t := by
  induction m with
  | zero => rfl
  | succ k ih => rw [driveN, hstep, ih]

end UploadTask

/-- Claim C3: for every payload of at most 256 KiB the failure-free run
issues exactly one backend call, the one-shot multipart upload, before
reaching SUCCESS (and issues nothing further); for every payload above
256 KiB the engine takes the resumable path, and in any run any continue
call is preceded in the issued trace by the session creation. -/
theorem claim_C3_threshold_paths (total base : Nat) :
    (total ≤ 256 * 1024 →
      (driveN 2 (initTask total base)).state = .success ∧
      (driveN 2 (initTask total base)).issued = [.oneShot] ∧
      ∀ m, driveN m (driveN 2 (initTask total base)) =
        driveN 2 (initTask total base)) ∧
    (256 * 1024 < total →
      ∀ n l1 cs o l2,
        (driveN n (initTask total base)).issued =
          l1 ++ NetCall.continueChunk cs o :: l2 →
        NetCall.createResumable ∈ l1) := by
  constructor
  · intro h
    rw [driveN_two_small total base h]
    exact ⟨rfl, rfl, fun m => driveN_fixpoint _ (driveStep_fixpoint _ rfl rfl) m⟩
  · intro h n l1 cs o l2 heq
    obtain ⟨h1, h2⟩ :=
      resumableTraceInv_driveN n (initTask total base)
        (resumableTraceInv_init total base h)
    cases l1 with
    | nil =>
      exfalso
      rw [heq] at h2
      have hcontr := h2 (NetCall.continueChunk cs o) rfl
      simp at hcontr
    | cons a l1' =>
      rw [heq] at h2
      have ha := h2 a rfl
      rw [← ha]
      exact List.mem_cons_self a l1'

/-- Witness for C3: a 1000-byte payload completes with the single oneShot
call, and in the 300000-byte run the continue call at offset 0 is
preceded by the session creation. -/
theorem claim_C3_witness :
    (driveN 2 (initTask 1000 262144)).issued = [NetCall.oneShot] ∧
    NetCall.createResumable ∈ [NetCall.createResumable] :=
  ⟨((claim_C3_threshold_paths 1000 262144).1 (by norm_num)).2.1,
   (claim_C3_threshold_paths 300000 262144).2 (by norm_num) 3
      [NetCall.createResumable] 262144 0 [] (by decide)⟩

namespace UploadTask

/-- The at-most-one-outstanding-call invariant: the number of in-flight
network calls matches the stored request handle (one exactly when a
handle is stored), and while a token resolution is pending for a prepared
step no handle is stored. -/
def EngineInv (t : UploadTask) : Prop :=
  (t.outstanding = if t.request.isSome then 1 else 0) ∧
  (∀ c, t.pendingToken = some c → t.request = none)

theorem engineInv_notifyObservers (t : UploadTask) (h : EngineInv t) :
    EngineInv (notifyObservers t) := by
  obtain ⟨h1, h2⟩ := h
  refine ⟨?_, ?_⟩
  · simp [notifyObservers, h1]
  · intro c hc
    simp only [notifyObservers, finishPromise_pendingToken] at hc
    simp only [notifyObservers, finishPromise_request]
    exact h2 c hc

theorem engineInv_start (t : UploadTask) (h : EngineInv t) :
    EngineInv (start t) := by
  obtain ⟨h1, h2⟩ := h
  by_cases hs : t.state ≠ .running
  · rw [start, if_pos hs]
    exact ⟨h1, h2⟩
  · by_cases hr : t.request ≠ none
    · rw [start, if_neg hs, if_pos hr]
      exact ⟨h1, h2⟩
    · rw [start, if_neg hs, if_neg hr]
      exact ⟨h1, fun c hc => not_not.mp hr⟩

theorem engineInv_cancelOutstanding (t : UploadTask) (h : EngineInv t) :
    EngineInv (cancelOutstanding t) := by
  obtain ⟨h1, h2⟩ := h
  unfold cancelOutstanding
  cases hreq : t.request with
  | none => exact ⟨h1, h2⟩
  | some r =>
    constructor
    · dsimp only
      rw [hreq] at h1
      simpa using h1
    · intro c hc
      dsimp only at hc
      exact absurd (h2 c hc) (by simp [hreq])

theorem engineInv_transition (t : UploadTask) (s : InternalTaskState)
    (h : EngineInv t) : EngineInv (transition t s) := by
  obtain ⟨h1, h2⟩ := h
  unfold transition
  split
  · exact ⟨h1, h2⟩
  · cases s
    · dsimp only
      split
      · exact engineInv_start _ (engineInv_notifyObservers _ ⟨h1, h2⟩)
      · exact ⟨h1, h2⟩
    · exact engineInv_cancelOutstanding _ ⟨h1, h2⟩
    · exact engineInv_notifyObservers _ ⟨h1, h2⟩
    · exact engineInv_cancelOutstanding _ ⟨h1, h2⟩
    · exact engineInv_notifyObservers _ ⟨h1, h2⟩
    · exact engineInv_notifyObservers _ ⟨h1, h2⟩
    · exact engineInv_notifyObservers _ ⟨h1, h2⟩

theorem engineInv_completeTransitions (t : UploadTask) (h : EngineInv t) :
    EngineInv (completeTransitions t) := by
  unfold completeTransitions
  split
  · exact engineInv_transition _ _ h
  · exact engineInv_transition _ _ h
  · exact engineInv_start _ h
  · exact h

theorem engineInv_createResumableOk (t : UploadTask) (u : Nat)
    (ho : t.outstanding = 0) (hp : t.pendingToken = none) :
    EngineInv (createResumableOk t u) := by
  apply engineInv_completeTransitions
  constructor
  · simp [ho]
  · intro c hc
    simp [hp] at hc

theorem engineInv_fetchStatusOk (t : UploadTask) (cn : Nat) (f : Bool)
    (ho : t.outstanding = 0) (hp : t.pendingToken = none) :
    EngineInv (fetchStatusOk t cn f) := by
  unfold fetchStatusOk
  dsimp only
  apply engineInv_completeTransitions
  split
  · constructor
    · simp [ho]
    · intro c hc
      simp [hp] at hc
  · constructor
    · simp [ho]
    · intro c hc
      simp [hp] at hc

theorem engineInv_continueOk (t : UploadTask) (cn : Nat) (f : Bool)
    (m : Option Nat) (ho : t.outstanding = 0) (hp : t.pendingToken = none) :
    EngineInv (continueOk t cn f m) := by
  unfold continueOk
  dsimp only
  split
  · apply engineInv_transition
    constructor
    · simp [ho]
    · intro c hc
      simp [hp] at hc
  · apply engineInv_completeTransitions
    constructor
    · simp [ho]
    · intro c hc
      simp [hp] at hc

theorem engineInv_fetchMetadataOk (t : UploadTask) (m : Nat)
    (ho : t.outstanding = 0) (hp : t.pendingToken = none) :
    EngineInv (fetchMetadataOk t m) := by
  apply engineInv_transition
  constructor
  · simp [ho]
  · intro c hc
    simp [hp] at hc

theorem engineInv_oneShotOk (t : UploadTask) (m : Nat)
    (ho : t.outstanding = 0) (hp : t.pendingToken = none) :
    EngineInv (oneShotOk t m) := by
  unfold oneShotOk
  dsimp only
  apply engineInv_transition
  constructor
  · simp [ho]
  · intro c hc
    simp [hp] at hc

theorem engineInv_errorHandler (t : UploadTask) (e : FirebaseStorageError)
    (ho : t.outstanding = 0) (hp : t.pendingToken = none) :
    EngineInv (errorHandler t e) := by
  unfold errorHandler
  dsimp only
  split
  · apply engineInv_completeTransitions
    constructor
    · simp [ho]
    · intro c hc
      simp [hp] at hc
  · apply engineInv_transition
    constructor
    · simp [ho]
    · intro c hc
      simp [hp] at hc

theorem engineInv_metadataErrorHandler (t : UploadTask)
    (e : FirebaseStorageError) (ho : t.outstanding = 0)
    (hp : t.pendingToken = none) :
    EngineInv (metadataErrorHandler t e) := by
  unfold metadataErrorHandler
  dsimp only
  split
  · apply engineInv_completeTransitions
    constructor
    · simp [ho]
    · intro c hc
      simp [hp] at hc
  · apply engineInv_transition
    constructor
    · simp [ho]
    · intro c hc
      simp [hp] at hc

theorem engineInv_tokenArrival (t : UploadTask) (h : EngineInv t) :
    EngineInv (tokenArrival t) := by
  obtain ⟨h1, h2⟩ := h
  unfold tokenArrival
  cases hc : t.pendingToken with
  | none => exact ⟨h1, h2⟩
  | some c =>
    dsimp only
    have hreq : t.request = none := h2 c hc
    have ho : t.outstanding = 0 := by
      rw [h1, hreq]
      rfl
    cases hst : t.state
    · constructor
      · simp [ho]
      · intro c2 hc2
        simp at hc2
    · apply engineInv_transition
      constructor
      · exact h1
      · intro c2 hc2
        simp at hc2
    · constructor
      · exact h1
      · intro c2 hc2
        simp at hc2
    · apply engineInv_transition
      constructor
      · exact h1
      · intro c2 hc2
        simp at hc2
    · constructor
      · exact h1
      · intro c2 hc2
        simp at hc2
    · constructor
      · exact h1
      · intro c2 hc2
        simp at hc2
    · constructor
      · exact h1
      · intro c2 hc2
        simp at hc2

end UploadTask

theorem engineInv_applyEvent (t : UploadTask) (ev : TaskEv)
    (h : EngineInv t) : EngineInv (applyEvent t ev) := by
  cases ev with
  | pauseReq =>
    unfold applyEvent UploadTask.pause
    dsimp only
    split
    · exact UploadTask.engineInv_transition _ _ h
    · exact h
  | resumeReq =>
    unfold applyEvent UploadTask.resume
    dsimp only
    split
    · exact UploadTask.engineInv_transition _ _ h
    · exact h
  | cancelReq =>
    unfold applyEvent UploadTask.cancel
    dsimp only
    split
    · exact UploadTask.engineInv_transition _ _ h
    · exact h
  | token => exact UploadTask.engineInv_tokenArrival t h
  | netOk r =>
    unfold applyEvent
    dsimp only
    cases hreq : t.request with
    | none => exact h
    | some req =>
      dsimp only
      have ho1 : t.outstanding = 1 := by
        rw [h.1, hreq]
        rfl
      have hp : t.pendingToken = none := by
        cases hpt : t.pendingToken with
        | none => rfl
        | some c => exact absurd (h.2 c hpt) (by simp [hreq])
      cases hcall : req.call <;> cases r <;>
        first
        | exact h
        | (apply UploadTask.engineInv_createResumableOk <;> simp [ho1, hp])
        | (apply UploadTask.engineInv_fetchStatusOk <;> simp [ho1, hp])
        | (apply UploadTask.engineInv_continueOk <;> simp [ho1, hp])
        | (apply UploadTask.engineInv_fetchMetadataOk <;> simp [ho1, hp])
        | (apply UploadTask.engineInv_oneShotOk <;> simp [ho1, hp])
  | netErr e =>
    unfold applyEvent
    dsimp only
    cases hreq : t.request with
    | none => exact h
    | some req =>
      dsimp only
      have ho1 : t.outstanding = 1 := by
        rw [h.1, hreq]
        rfl
      have hp : t.pendingToken = none := by
        cases hpt : t.pendingToken with
        | none => rfl
        | some c => exact absurd (h.2 c hpt) (by simp [hreq])
      cases hcall : req.call <;>
        first
        | (apply UploadTask.engineInv_metadataErrorHandler <;> simp [ho1, hp])
        | (apply UploadTask.engineInv_errorHandler <;> simp [ho1, hp])

theorem engineInv_initTask (total base : Nat) :
    EngineInv (initTask total base) := by
  apply UploadTask.engineInv_start
  constructor
  · rfl
  · intro c hc
    simp at hc

theorem engineInv_runEvents (evs : List TaskEv) :
    ∀ t : UploadTask, EngineInv t → EngineInv (runEvents t evs) := by
  induction evs with
  | nil => exact fun t h => h
  | cons ev rest ih =>
    intro t h
    exact ih (applyEvent t ev) (engineInv_applyEvent t ev h)

/-- Claim C7: after any sequence of events from creation, the number of
outstanding network call handles matches the stored request handle and
never exceeds one; and `_start` never begins a step while the stored
request handle is present. -/
theorem claim_C7_at_most_one_outstanding (total base : Nat)
    (evs : List TaskEv) :
    ((runEvents (initTask total base) evs).outstanding =
      if (runEvents (initTask total base) evs).request.isSome then 1
      else 0) ∧
    (runEvents (initTask total base) evs).outstanding ≤ 1 ∧
    (∀ u : UploadTask, u.request.isSome = true → u.start = u) := by
  have hinv :=
    engineInv_runEvents evs (initTask total base)
      (engineInv_initTask total base)
  refine ⟨hinv.1, ?_, ?_⟩
  · rw [hinv.1]
    split <;> omega
  · intro u hu
    obtain ⟨r, hr⟩ := Option.isSome_iff_exists.mp hu
    by_cases hs : u.state ≠ .running
    · rw [UploadTask.start, if_pos hs]
    · rw [UploadTask.start, if_neg hs, if_pos (by simp [hr])]

/-- Witness for C7: `_start` is inert on a task with a stored request
handle. -/
theorem claim_C7_witness :
    ({ sampleBase with request := some ⟨.fetchStatus, false⟩ } :
      UploadTask).start =
      { sampleBase with request := some ⟨.fetchStatus, false⟩ } :=
  (claim_C7_at_most_one_outstanding 1 1 []).2.2 _ rfl
